import Mathlib

/-!
Verification of the intensity & peak-demand computation engine of the
MDP_Project repository (athlete workload analytics).

The definitions below are shallow embeddings of the Python source:

* `compute_player_mdp_metrics` embeds the function of the same name in
  `Pages for APP/3_👥_Players.py` (lines 74-137).  A pandas DataFrame for a
  single player session is modelled as a column store: the four
  `intensity_{w}s` columns are each either absent (`none`) or a list of
  optional rationals (`none` modelling a NaN cell), an optional `timestamp`
  column holds seconds as rationals, and `nrows` is the row count.
* `trend_interpretation` embeds the trend computation of
  `render_early_mid_late_trend` (same file, lines 329-347).
* `prepare_session_data` embeds the column-availability dispatch of the
  page body (same file, lines 550-567).
* Definitions whose doc comment starts with `Modelled from the spec:` stand
  for engine code that is referenced by the repository (imports, tests,
  validation scripts) but whose module is not part of the snapshot
  (`utils.py`, `mp_intensity_pipeline.py`, `src/intensity_classification.py`);
  they follow the specification's wording.

Machine floats are modelled as `ℚ` (the numeric code is exact arithmetic:
sums, maxima, divisions); the z-score pipeline, which needs a square root,
is modelled over `ℝ`.
-/

/-- A single-player session DataFrame, as used by `compute_player_mdp_metrics`:
row count, the four optional rolling-intensity columns (`intensity_5s`,
`intensity_10s`, `intensity_20s`, `intensity_30s`; a cell is `none` when the
rolling window is undefined there, i.e. pandas NaN), and an optional
`timestamp` column (seconds). -/
structure PlayerSessionDF where
  nrows : ℕ
  col5 : Option (List (Option ℚ))
  col10 : Option (List (Option ℚ))
  col20 : Option (List (Option ℚ))
  col30 : Option (List (Option ℚ))
  timestamps : Option (List ℚ)
deriving DecidableEq

/-- The access `df.colOf w` for `col_name = f'intensity_{w}s'`. -/
def PlayerSessionDF.colOf (df : PlayerSessionDF) : ℕ → Option (List (Option ℚ))
  | 5 => df.col5
  | 10 => df.col10
  | 20 => df.col20
  | 30 => df.col30
  | _ => none

/-- The output record of `compute_player_mdp_metrics`.  The peak window is
kept as the window length in seconds (the source stores the string `'20s'`
etc.). -/
structure MDPMetrics where
  mdp_5 : Option ℚ
  mdp_10 : Option ℚ
  mdp_20 : Option ℚ
  mdp_30 : Option ℚ
  mdp_peak_value : Option ℚ
  mdp_peak_window : Option ℕ
  coverage : ℚ
  samples : ℕ
  has_peak_data : Bool
deriving DecidableEq

/-- The record returned for an empty input (`None` or zero rows). -/
def emptyMetrics : MDPMetrics :=
  { mdp_5 := none, mdp_10 := none, mdp_20 := none, mdp_30 := none
    mdp_peak_value := none, mdp_peak_window := none
    coverage := 0, samples := 0, has_peak_data := false }

/-- pandas `Series.max()`: skip NaN cells; NaN (here `none`) when no cell is
defined. -/
def seriesMax (xs : List (Option ℚ)) : Option ℚ :=
  match xs.filterMap id with
  | [] => none
  | y :: ys => some (ys.foldl max y)

/-- One window's branch of the loop in `compute_player_mdp_metrics`:
`df[col].max()` if the column exists, else `None`. -/
def colMDP (c : Option (List (Option ℚ))) : Option ℚ :=
  match c with
  | none => none
  | some xs => seriesMax xs

/-- `series.min()` on an all-defined column, with a (never used on
well-formed data) default for the empty list. -/
def listMinD : List ℚ → ℚ
  | [] => 0
  | x :: xs => xs.foldl min x

/-- `series.max()` on an all-defined column, with a default for the empty
list. -/
def listMaxD : List ℚ → ℚ
  | [] => 0
  | x :: xs => xs.foldl max x

/-- The `for window_size in [5,10,20,30]: if metrics[...] == peak: break`
search: first window whose per-window MDP equals the overall peak. -/
def findPeakWindow (pv : ℚ) : List (ℕ × Option ℚ) → Option ℕ
  | [] => none
  | (w, m) :: rest => if m = some pv then some w else findPeakWindow pv rest

/-- The data-quality branch of `compute_player_mdp_metrics` (lines 123-132):
when a `timestamp` column exists and there is more than one sample, coverage
is `samples / max(1, elapsed_seconds) * 100` capped at 100 (and 100 when the
elapsed time is not positive); otherwise 100 for a non-empty session and 0
for an empty one. -/
def coveragePct (df : PlayerSessionDF) : ℚ :=
  match df.timestamps with
  | some ts =>
    if 1 < df.nrows then
      let total := listMaxD ts - listMinD ts
      let p := if 0 < total then (df.nrows : ℚ) / max 1 total * 100 else 100
      min 100 p
    else if 0 < df.nrows then 100 else 0
  | none => if 0 < df.nrows then 100 else 0

/-- The `peak_values = [v for v in [...] if v is not None]` list followed by
`max(peak_values)` when non-empty. -/
def peakValue (m5 m10 m20 m30 : Option ℚ) : Option ℚ :=
  match ([m5, m10, m20, m30].filterMap id) with
  | [] => none
  | p :: ps => some (ps.foldl max p)

/-- The window-search loop: `None` when there is no peak value, else the
first window length in `[5, 10, 20, 30]` whose per-window MDP equals it. -/
def peakWindow (m5 m10 m20 m30 : Option ℚ) : Option ℕ :=
  match peakValue m5 m10 m20 m30 with
  | none => none
  | some v => findPeakWindow v [(5, m5), (10, m10), (20, m20), (30, m30)]

/-- Selection of the per-window MDP of a quadruple by window length. -/
def mdpQuad (m5 m10 m20 m30 : Option ℚ) : ℕ → Option ℚ
  | 5 => m5
  | 10 => m10
  | 20 => m20
  | 30 => m30
  | _ => none

/-- Embedding of `compute_player_mdp_metrics` from
`Pages for APP/3_👥_Players.py`: per-window maxima, overall peak with
first-match (shortest-window) tie-break, data-quality coverage, and the
`has_peak_data` flag. -/
def compute_player_mdp_metrics (dfOpt : Option PlayerSessionDF) : MDPMetrics :=
  match dfOpt with
  | none => emptyMetrics
  | some df =>
    if df.nrows = 0 then emptyMetrics
    else
      let m5 := colMDP df.col5
      let m10 := colMDP df.col10
      let m20 := colMDP df.col20
      let m30 := colMDP df.col30
      { mdp_5 := m5, mdp_10 := m10, mdp_20 := m20, mdp_30 := m30
        mdp_peak_value := peakValue m5 m10 m20 m30
        mdp_peak_window := peakWindow m5 m10 m20 m30
        coverage := coveragePct df, samples := df.nrows
        has_peak_data := m5.isSome || m10.isSome || m20.isSome || m30.isSome }

-- Basic facts about foldl of max, used by the peak theorems.

theorem foldl_max_mem (p : ℚ) (ps : List ℚ) :
    ps.foldl max p = p ∨ ps.foldl max p ∈ ps := by
  induction ps generalizing p with
  | nil => exact Or.inl rfl
  | cons q qs ih =>
    rcases ih (max p q) with h | h
    · rcases max_choice p q with hm | hm
      · exact Or.inl (h.trans hm)
      · refine Or.inr ?_
        show List.foldl max (max p q) qs ∈ q :: qs
        rw [h, hm]
        exact List.mem_cons_self q qs
    · exact Or.inr (List.mem_cons_of_mem q h)

theorem le_foldl_max (p : ℚ) (ps : List ℚ) : p ≤ ps.foldl max p := by
  induction ps generalizing p with
  | nil => exact le_refl p
  | cons q qs ih => exact le_trans (le_max_left p q) (ih (max p q))

theorem mem_le_foldl_max (p x : ℚ) (ps : List ℚ) (hx : x ∈ ps) :
    x ≤ ps.foldl max p := by
  induction ps generalizing p with
  | nil => cases hx
  | cons q qs ih =>
    rcases List.mem_cons.mp hx with h | h
    · subst h
      exact le_trans (le_max_right p x) (le_foldl_max (max p x) qs)
    · exact ih (max p q) h

theorem findPeakWindow_isSome (pv : ℚ) (l : List (ℕ × Option ℚ))
    (h : ∃ p ∈ l, p.2 = some pv) : (findPeakWindow pv l).isSome := by
  induction l with
  | nil => simp at h
  | cons q qs ih =>
    by_cases hq : q.2 = some pv
    · simp [findPeakWindow, hq]
    · rcases h with ⟨p, hp, hpv⟩
      rcases List.mem_cons.mp hp with rfl | hp
      · exact absurd hpv hq
      · simpa [findPeakWindow, hq] using ih ⟨p, hp, hpv⟩

theorem compute_some_eq (df : PlayerSessionDF) (h : ¬ df.nrows = 0) :
    compute_player_mdp_metrics (some df) =
      { mdp_5 := colMDP df.col5, mdp_10 := colMDP df.col10
        mdp_20 := colMDP df.col20, mdp_30 := colMDP df.col30
        mdp_peak_value :=
          peakValue (colMDP df.col5) (colMDP df.col10) (colMDP df.col20) (colMDP df.col30)
        mdp_peak_window :=
          peakWindow (colMDP df.col5) (colMDP df.col10) (colMDP df.col20) (colMDP df.col30)
        coverage := coveragePct df, samples := df.nrows
        has_peak_data :=
          (colMDP df.col5).isSome || (colMDP df.col10).isSome ||
          (colMDP df.col20).isSome || (colMDP df.col30).isSome } := by
  simp [compute_player_mdp_metrics, h]

theorem peakValue_spec (m5 m10 m20 m30 : Option ℚ) (v : ℚ)
    (h : peakValue m5 m10 m20 m30 = some v) :
    v ∈ [m5, m10, m20, m30].filterMap id ∧
      ∀ u ∈ [m5, m10, m20, m30].filterMap id, u ≤ v := by
  rw [peakValue] at h
  split at h
  · exact absurd h (by simp)
  · next p ps heq =>
    injection h with h'
    subst h'
    constructor
    · rw [heq]
      rcases foldl_max_mem p ps with h2 | h2
      · rw [h2]; exact List.mem_cons_self p ps
      · exact List.mem_cons_of_mem p h2
    · intro u hu
      rw [heq] at hu
      rcases List.mem_cons.mp hu with rfl | hu
      · exact le_foldl_max u ps
      · exact mem_le_foldl_max p u ps hu

theorem peakWindow_spec (m5 m10 m20 m30 : Option ℚ) (w : ℕ)
    (h : peakWindow m5 m10 m20 m30 = some w) :
    w ∈ ([5, 10, 20, 30] : List ℕ) ∧
      mdpQuad m5 m10 m20 m30 w = peakValue m5 m10 m20 m30 ∧
      ∀ wSm ∈ ([5, 10, 20, 30] : List ℕ), wSm < w →
        mdpQuad m5 m10 m20 m30 wSm ≠ peakValue m5 m10 m20 m30 := by
  rw [peakWindow] at h
  rcases hpv : peakValue m5 m10 m20 m30 with _ | v
  · rw [hpv] at h; exact absurd h (by simp)
  · rw [hpv] at h
    simp only [findPeakWindow] at h
    by_cases h5 : m5 = some v
    · rw [if_pos h5] at h
      injection h with h
      subst h
      refine ⟨by simp, by simp [mdpQuad, h5, hpv], ?_⟩
      intro wSm hmem hlt
      simp only [List.mem_cons, List.not_mem_nil, or_false] at hmem
      rcases hmem with rfl | rfl | rfl | rfl <;> omega
    · rw [if_neg h5] at h
      by_cases h10 : m10 = some v
      · rw [if_pos h10] at h
        injection h with h
        subst h
        refine ⟨by simp, by simp [mdpQuad, h10, hpv], ?_⟩
        intro wSm hmem hlt
        simp only [List.mem_cons, List.not_mem_nil, or_false] at hmem
        rcases hmem with rfl | rfl | rfl | rfl
        · simp only [mdpQuad, hpv]; exact h5
        · omega
        · omega
        · omega
      · rw [if_neg h10] at h
        by_cases h20 : m20 = some v
        · rw [if_pos h20] at h
          injection h with h
          subst h
          refine ⟨by simp, by simp [mdpQuad, h20, hpv], ?_⟩
          intro wSm hmem hlt
          simp only [List.mem_cons, List.not_mem_nil, or_false] at hmem
          rcases hmem with rfl | rfl | rfl | rfl
          · simp only [mdpQuad, hpv]; exact h5
          · simp only [mdpQuad, hpv]; exact h10
          · omega
          · omega
        · rw [if_neg h20] at h
          by_cases h30 : m30 = some v
          · rw [if_pos h30] at h
            injection h with h
            subst h
            refine ⟨by simp, by simp [mdpQuad, h30, hpv], ?_⟩
            intro wSm hmem hlt
            simp only [List.mem_cons, List.not_mem_nil, or_false] at hmem
            rcases hmem with rfl | rfl | rfl | rfl
            · simp only [mdpQuad, hpv]; exact h5
            · simp only [mdpQuad, hpv]; exact h10
            · simp only [mdpQuad, hpv]; exact h20
            · omega
          · rw [if_neg h30] at h
            exact absurd h (by simp)

theorem peakValue_eq_none_iff (m5 m10 m20 m30 : Option ℚ) :
    peakValue m5 m10 m20 m30 = none ↔
      (m5 = none ∧ m10 = none ∧ m20 = none ∧ m30 = none) := by
  rcases m5 with _ | a <;> rcases m10 with _ | b <;> rcases m20 with _ | c <;>
    rcases m30 with _ | d <;> simp [peakValue]

theorem peakWindow_isSome_of_peakValue (m5 m10 m20 m30 : Option ℚ) (v : ℚ)
    (h : peakValue m5 m10 m20 m30 = some v) :
    (peakWindow m5 m10 m20 m30).isSome := by
  rw [peakWindow, h]
  apply findPeakWindow_isSome
  have hv := (peakValue_spec m5 m10 m20 m30 v h).1
  rcases List.mem_filterMap.mp hv with ⟨a, ha, hav⟩
  simp only [id] at hav
  simp only [List.mem_cons, List.not_mem_nil, or_false] at ha
  rcases ha with rfl | rfl | rfl | rfl
  · exact ⟨(5, a), by simp, hav⟩
  · exact ⟨(10, a), by simp, hav⟩
  · exact ⟨(20, a), by simp, hav⟩
  · exact ⟨(30, a), by simp, hav⟩

theorem peakWindow_eq_none_of_peakValue (m5 m10 m20 m30 : Option ℚ)
    (h : peakValue m5 m10 m20 m30 = none) :
    peakWindow m5 m10 m20 m30 = none := by
  rw [peakWindow, h]

/-- Fixture for the overall-peak witness: the 5s and 10s windows tie at the
maximum. -/
def tieFixture : PlayerSessionDF :=
  { nrows := 1, col5 := some [some 7], col10 := some [some 7]
    col20 := some [some 3], col30 := none, timestamps := none }

/-- C1: the overall peak reported by `compute_player_mdp_metrics` is the
maximum over the computed per-window MDP values, and the reported peak
window attains that maximum while no shorter window does — so when two
window lengths tie on the maximum, the shorter one is reported. -/
theorem overall_peak_is_max_shortest_window (dfOpt : Option PlayerSessionDF) :
    (∀ v, (compute_player_mdp_metrics dfOpt).mdp_peak_value = some v →
      v ∈ ([(compute_player_mdp_metrics dfOpt).mdp_5,
            (compute_player_mdp_metrics dfOpt).mdp_10,
            (compute_player_mdp_metrics dfOpt).mdp_20,
            (compute_player_mdp_metrics dfOpt).mdp_30].filterMap id) ∧
      ∀ u ∈ ([(compute_player_mdp_metrics dfOpt).mdp_5,
              (compute_player_mdp_metrics dfOpt).mdp_10,
              (compute_player_mdp_metrics dfOpt).mdp_20,
              (compute_player_mdp_metrics dfOpt).mdp_30].filterMap id), u ≤ v) ∧
    (∀ w, (compute_player_mdp_metrics dfOpt).mdp_peak_window = some w →
      w ∈ ([5, 10, 20, 30] : List ℕ) ∧
      mdpQuad (compute_player_mdp_metrics dfOpt).mdp_5
          (compute_player_mdp_metrics dfOpt).mdp_10
          (compute_player_mdp_metrics dfOpt).mdp_20
          (compute_player_mdp_metrics dfOpt).mdp_30 w =
        (compute_player_mdp_metrics dfOpt).mdp_peak_value ∧
      ∀ wSm ∈ ([5, 10, 20, 30] : List ℕ), wSm < w →
        mdpQuad (compute_player_mdp_metrics dfOpt).mdp_5
            (compute_player_mdp_metrics dfOpt).mdp_10
            (compute_player_mdp_metrics dfOpt).mdp_20
            (compute_player_mdp_metrics dfOpt).mdp_30 wSm ≠
          (compute_player_mdp_metrics dfOpt).mdp_peak_value) := by
  rcases dfOpt with _ | df
  · constructor
    · intro v hv
      exact absurd hv (by simp [compute_player_mdp_metrics, emptyMetrics])
    · intro w hw
      exact absurd hw (by simp [compute_player_mdp_metrics, emptyMetrics])
  · by_cases hz : df.nrows = 0
    · constructor
      · intro v hv
        exact absurd hv (by simp [compute_player_mdp_metrics, hz, emptyMetrics])
      · intro w hw
        exact absurd hw (by simp [compute_player_mdp_metrics, hz, emptyMetrics])
    · rw [compute_some_eq df hz]
      constructor
      · intro v hv
        exact peakValue_spec _ _ _ _ v hv
      · intro w hw
        exact peakWindow_spec _ _ _ _ w hw

/-- Witness for C1 on `tieFixture`: the 5s and 10s MDPs tie at 7 and the 5s
window is the one reported. -/
theorem overall_peak_is_max_shortest_window_witness :
    5 ∈ ([5, 10, 20, 30] : List ℕ) ∧
    mdpQuad (compute_player_mdp_metrics (some tieFixture)).mdp_5
        (compute_player_mdp_metrics (some tieFixture)).mdp_10
        (compute_player_mdp_metrics (some tieFixture)).mdp_20
        (compute_player_mdp_metrics (some tieFixture)).mdp_30 5 =
      (compute_player_mdp_metrics (some tieFixture)).mdp_peak_value ∧
    ∀ wSm ∈ ([5, 10, 20, 30] : List ℕ), wSm < 5 →
      mdpQuad (compute_player_mdp_metrics (some tieFixture)).mdp_5
          (compute_player_mdp_metrics (some tieFixture)).mdp_10
          (compute_player_mdp_metrics (some tieFixture)).mdp_20
          (compute_player_mdp_metrics (some tieFixture)).mdp_30 wSm ≠
        (compute_player_mdp_metrics (some tieFixture)).mdp_peak_value :=
  (overall_peak_is_max_shortest_window (some tieFixture)).2 5 (by decide)

/-- C3: for an empty player-session input (`None` or zero rows) every peak
field of the returned record is `None` and `has_peak_data` is false; the
computation is total, so it never raises in this case. -/
theorem empty_session_all_null (dfOpt : Option PlayerSessionDF)
    (h : dfOpt = none ∨ ∃ df, dfOpt = some df ∧ df.nrows = 0) :
    (compute_player_mdp_metrics dfOpt).mdp_5 = none ∧
    (compute_player_mdp_metrics dfOpt).mdp_10 = none ∧
    (compute_player_mdp_metrics dfOpt).mdp_20 = none ∧
    (compute_player_mdp_metrics dfOpt).mdp_30 = none ∧
    (compute_player_mdp_metrics dfOpt).mdp_peak_value = none ∧
    (compute_player_mdp_metrics dfOpt).mdp_peak_window = none ∧
    (compute_player_mdp_metrics dfOpt).has_peak_data = false := by
  rcases h with rfl | ⟨df, rfl, hz⟩
  · simp [compute_player_mdp_metrics, emptyMetrics]
  · simp [compute_player_mdp_metrics, hz, emptyMetrics]

/-- Witness for C3 at the `None` input. -/
theorem empty_session_all_null_witness :
    (compute_player_mdp_metrics none).mdp_5 = none ∧
    (compute_player_mdp_metrics none).mdp_10 = none ∧
    (compute_player_mdp_metrics none).mdp_20 = none ∧
    (compute_player_mdp_metrics none).mdp_30 = none ∧
    (compute_player_mdp_metrics none).mdp_peak_value = none ∧
    (compute_player_mdp_metrics none).mdp_peak_window = none ∧
    (compute_player_mdp_metrics none).has_peak_data = false :=
  empty_session_all_null none (Or.inl rfl)

/-- Fixture for the `has_peak_data` witness: only the 10s and 20s windows
have defined values. -/
def peakFixture : PlayerSessionDF :=
  { nrows := 2, col5 := none, col10 := some [none, some 4]
    col20 := some [some 2, none], col30 := none, timestamps := some [0, 1] }

/-- C9: in every record returned by `compute_player_mdp_metrics`,
`has_peak_data` holds iff at least one per-window MDP is defined, and the
overall peak value and window are both `None` exactly when `has_peak_data`
is false (both defined whenever it is true). -/
theorem has_peak_data_invariant (dfOpt : Option PlayerSessionDF) :
    ((compute_player_mdp_metrics dfOpt).has_peak_data = true ↔
      ((compute_player_mdp_metrics dfOpt).mdp_5 ≠ none ∨
       (compute_player_mdp_metrics dfOpt).mdp_10 ≠ none ∨
       (compute_player_mdp_metrics dfOpt).mdp_20 ≠ none ∨
       (compute_player_mdp_metrics dfOpt).mdp_30 ≠ none)) ∧
    ((compute_player_mdp_metrics dfOpt).has_peak_data = false ↔
      ((compute_player_mdp_metrics dfOpt).mdp_peak_value = none ∧
       (compute_player_mdp_metrics dfOpt).mdp_peak_window = none)) ∧
    ((compute_player_mdp_metrics dfOpt).has_peak_data = true →
      (compute_player_mdp_metrics dfOpt).mdp_peak_value ≠ none ∧
      (compute_player_mdp_metrics dfOpt).mdp_peak_window ≠ none) := by
  have key : ∀ m5 m10 m20 m30 : Option ℚ,
      ((m5.isSome || m10.isSome || m20.isSome || m30.isSome) = true ↔
        (m5 ≠ none ∨ m10 ≠ none ∨ m20 ≠ none ∨ m30 ≠ none)) ∧
      ((m5.isSome || m10.isSome || m20.isSome || m30.isSome) = false ↔
        (peakValue m5 m10 m20 m30 = none ∧ peakWindow m5 m10 m20 m30 = none)) ∧
      ((m5.isSome || m10.isSome || m20.isSome || m30.isSome) = true →
        peakValue m5 m10 m20 m30 ≠ none ∧ peakWindow m5 m10 m20 m30 ≠ none) := by
    intro m5 m10 m20 m30
    have hflag : (m5.isSome || m10.isSome || m20.isSome || m30.isSome) = false ↔
        (m5 = none ∧ m10 = none ∧ m20 = none ∧ m30 = none) := by
      simp [Option.isSome_iff_ne_none]
      tauto
    refine ⟨?_, ?_, ?_⟩
    · simp [Option.isSome_iff_ne_none]
      tauto
    · constructor
      · intro hf
        have hall := hflag.mp hf
        have hpv := (peakValue_eq_none_iff m5 m10 m20 m30).mpr hall
        exact ⟨hpv, peakWindow_eq_none_of_peakValue m5 m10 m20 m30 hpv⟩
      · intro hpn
        exact hflag.mpr ((peakValue_eq_none_iff m5 m10 m20 m30).mp hpn.1)
    · intro ht
      have hnall : ¬ (m5 = none ∧ m10 = none ∧ m20 = none ∧ m30 = none) := by
        intro hall
        have hf := hflag.mpr hall
        rw [ht] at hf
        cases hf
      have hpv : peakValue m5 m10 m20 m30 ≠ none := fun hc =>
        hnall ((peakValue_eq_none_iff m5 m10 m20 m30).mp hc)
      rcases hx : peakValue m5 m10 m20 m30 with _ | v
      · exact absurd hx hpv
      · have hsome := peakWindow_isSome_of_peakValue m5 m10 m20 m30 v hx
        refine ⟨by simp, fun hc => ?_⟩
        rw [hc] at hsome
        cases hsome
  rcases dfOpt with _ | df
  · simp [compute_player_mdp_metrics, emptyMetrics]
  · by_cases hz : df.nrows = 0
    · simp [compute_player_mdp_metrics, hz, emptyMetrics]
    · rw [compute_some_eq df hz]
      exact key (colMDP df.col5) (colMDP df.col10) (colMDP df.col20) (colMDP df.col30)

/-- Witness for C9 on `peakFixture`: `has_peak_data` holds, so the overall
peak value and window are both defined. -/
theorem has_peak_data_invariant_witness :
    (compute_player_mdp_metrics (some peakFixture)).mdp_peak_value ≠ none ∧
    (compute_player_mdp_metrics (some peakFixture)).mdp_peak_window ≠ none :=
  (has_peak_data_invariant (some peakFixture)).2.2 (by decide)

theorem mdpQuad_compute (df : PlayerSessionDF) (h : ¬ df.nrows = 0)
    (w : ℕ) (hw : w ∈ ([5, 10, 20, 30] : List ℕ)) :
    mdpQuad (compute_player_mdp_metrics (some df)).mdp_5
        (compute_player_mdp_metrics (some df)).mdp_10
        (compute_player_mdp_metrics (some df)).mdp_20
        (compute_player_mdp_metrics (some df)).mdp_30 w =
      colMDP (df.colOf w) := by
  rw [compute_some_eq df h]
  simp only [List.mem_cons, List.not_mem_nil, or_false] at hw
  rcases hw with rfl | rfl | rfl | rfl <;>
    simp [mdpQuad, PlayerSessionDF.colOf]

/-- Fixture for the per-window-policy witness: no 5s column, a 10s column
with one NaN cell, an all-NaN 20s column, and a full 30s column. -/
def windowFixture : PlayerSessionDF :=
  { nrows := 2, col5 := none, col10 := some [none, some 3]
    col20 := some [none, none], col30 := some [some 1, some 5]
    timestamps := none }

/-- C4: for each window length in {5,10,20,30}, missing cells are dropped
before the per-window maximum is taken; the per-window MDP is `None` when
the column is absent or all its cells are missing, and each window's result
depends only on its own column, so one window's `None` does not abort the
others. -/
theorem per_window_mdp_policy (df : PlayerSessionDF) (h : ¬ df.nrows = 0)
    (w : ℕ) (hw : w ∈ ([5, 10, 20, 30] : List ℕ)) :
    (df.colOf w = none →
      mdpQuad (compute_player_mdp_metrics (some df)).mdp_5
          (compute_player_mdp_metrics (some df)).mdp_10
          (compute_player_mdp_metrics (some df)).mdp_20
          (compute_player_mdp_metrics (some df)).mdp_30 w = none) ∧
    (∀ xs, df.colOf w = some xs → xs.filterMap id = [] →
      mdpQuad (compute_player_mdp_metrics (some df)).mdp_5
          (compute_player_mdp_metrics (some df)).mdp_10
          (compute_player_mdp_metrics (some df)).mdp_20
          (compute_player_mdp_metrics (some df)).mdp_30 w = none) ∧
    (∀ xs y ys, df.colOf w = some xs → xs.filterMap id = y :: ys →
      mdpQuad (compute_player_mdp_metrics (some df)).mdp_5
          (compute_player_mdp_metrics (some df)).mdp_10
          (compute_player_mdp_metrics (some df)).mdp_20
          (compute_player_mdp_metrics (some df)).mdp_30 w =
        some (ys.foldl max y)) ∧
    (∀ dg : PlayerSessionDF, ¬ dg.nrows = 0 → dg.colOf w = df.colOf w →
      mdpQuad (compute_player_mdp_metrics (some dg)).mdp_5
          (compute_player_mdp_metrics (some dg)).mdp_10
          (compute_player_mdp_metrics (some dg)).mdp_20
          (compute_player_mdp_metrics (some dg)).mdp_30 w =
        mdpQuad (compute_player_mdp_metrics (some df)).mdp_5
          (compute_player_mdp_metrics (some df)).mdp_10
          (compute_player_mdp_metrics (some df)).mdp_20
          (compute_player_mdp_metrics (some df)).mdp_30 w) := by
  refine ⟨?_, ?_, ?_, ?_⟩
  · intro hc
    rw [mdpQuad_compute df h w hw, hc]
    rfl
  · intro xs hc hfm
    rw [mdpQuad_compute df h w hw, hc]
    show seriesMax xs = none
    unfold seriesMax
    rw [hfm]
  · intro xs y ys hc hfm
    rw [mdpQuad_compute df h w hw, hc]
    show seriesMax xs = some (ys.foldl max y)
    unfold seriesMax
    rw [hfm]
  · intro dg hg hcol
    rw [mdpQuad_compute dg hg w hw, mdpQuad_compute df h w hw, hcol]

/-- Witness for C4 on `windowFixture` at the 10s window: the NaN cell is
dropped and the maximum of the remaining cell is returned. -/
theorem per_window_mdp_policy_witness :
    mdpQuad (compute_player_mdp_metrics (some windowFixture)).mdp_5
        (compute_player_mdp_metrics (some windowFixture)).mdp_10
        (compute_player_mdp_metrics (some windowFixture)).mdp_20
        (compute_player_mdp_metrics (some windowFixture)).mdp_30 10 =
      some 3 :=
  (per_window_mdp_policy windowFixture (by decide) 10 (by decide)).2.2.1
    [none, some 3] 3 [] (by decide) (by decide)

/-- Fixture for the coverage witness: two samples with identical
timestamps, so the elapsed time is zero. -/
def coverageFixture : PlayerSessionDF :=
  { nrows := 2, col5 := none, col10 := some [some 1, some 2]
    col20 := none, col30 := none, timestamps := some [3, 3] }

/-- C10: for every non-empty player-session input the reported coverage lies
in [0,100]; with more than one sample but zero elapsed seconds the coverage
is exactly 100, and a non-empty session without a timestamp column also
reports 100. -/
theorem coverage_bounds (df : PlayerSessionDF) (h : ¬ df.nrows = 0) :
    (0 ≤ (compute_player_mdp_metrics (some df)).coverage ∧
     (compute_player_mdp_metrics (some df)).coverage ≤ 100) ∧
    (∀ ts, df.timestamps = some ts → 1 < df.nrows →
      listMaxD ts - listMinD ts = 0 →
      (compute_player_mdp_metrics (some df)).coverage = 100) ∧
    (df.timestamps = none →
      (compute_player_mdp_metrics (some df)).coverage = 100) := by
  have h0 : 0 < df.nrows := Nat.pos_of_ne_zero h
  rw [compute_some_eq df h]
  show (0 ≤ coveragePct df ∧ coveragePct df ≤ 100) ∧ _ ∧ _
  rcases hts : df.timestamps with _ | ts
  · refine ⟨?_, ?_, ?_⟩
    · simp [coveragePct, hts, h0]
    · intro ts2 hts2
      cases hts2
    · intro _
      simp [coveragePct, hts, h0]
  · by_cases h1 : 1 < df.nrows
    · by_cases h2 : 0 < listMaxD ts - listMinD ts
      · have hcov : coveragePct df =
            min 100 ((df.nrows : ℚ) / max 1 (listMaxD ts - listMinD ts) * 100) := by
          simp [coveragePct, hts, h1, h2]
        refine ⟨?_, ?_, ?_⟩
        · constructor
          · rw [hcov]
            have hp : (0 : ℚ) ≤ (df.nrows : ℚ) / max 1 (listMaxD ts - listMinD ts) * 100 := by
              apply mul_nonneg
              · apply div_nonneg (Nat.cast_nonneg _)
                exact le_trans zero_le_one (le_max_left _ _)
              · norm_num
            exact le_min (by norm_num) hp
          · rw [hcov]
            exact min_le_left _ _
        · intro ts2 hts2 _ htot
          injection hts2 with hts2
          subst hts2
          rw [htot] at h2
          exact absurd h2 (lt_irrefl 0)
        · intro hc
          cases hc
      · have hcov : coveragePct df = 100 := by
          simp [coveragePct, hts, h1, h2]
        refine ⟨?_, ?_, ?_⟩
        · rw [hcov]
          norm_num
        · intro ts2 hts2 _ _
          exact hcov
        · intro hc
          cases hc
    · have hcov : coveragePct df = 100 := by
        simp [coveragePct, hts, h1, h0]
      refine ⟨?_, ?_, ?_⟩
      · rw [hcov]
        norm_num
      · intro ts2 hts2 hgt _
        exact absurd hgt h1
      · intro hc
        cases hc

/-- Witness for C10 on `coverageFixture`: two samples, zero elapsed time,
coverage reported as exactly 100 and within [0,100]. -/
theorem coverage_bounds_witness :
    (0 ≤ (compute_player_mdp_metrics (some coverageFixture)).coverage ∧
     (compute_player_mdp_metrics (some coverageFixture)).coverage ≤ 100) ∧
    (compute_player_mdp_metrics (some coverageFixture)).coverage = 100 :=
  ⟨(coverage_bounds coverageFixture (by decide)).1,
   (coverage_bounds coverageFixture (by decide)).2.1 [3, 3] rfl (by decide)
     (by simp [listMaxD, listMinD])⟩

/-- The three trend labels of `render_early_mid_late_trend`. -/
inductive TrendLabel
  | increasing
  | decreasing
  | stable
deriving DecidableEq

/-- Embedding of the trend computation in `render_early_mid_late_trend`
(`Pages for APP/3_👥_Players.py`, lines 329-347): when the early-third and
late-third means are defined (non-NaN) and the early mean is positive, the
percentage change `(late - early) / early * 100` is labelled increasing
above +5, decreasing below −5, and stable otherwise; no trend is reported
otherwise. -/
def trend_interpretation (early late : Option ℚ) : Option (ℚ × TrendLabel) :=
  match early, late with
  | some e, some l =>
    if 0 < e then
      let pct := (l - e) / e * 100
      some (pct,
        if 5 < pct then TrendLabel.increasing
        else if pct < -5 then TrendLabel.decreasing
        else TrendLabel.stable)
    else none
  | _, _ => none

/-- C8: for defined early/late thirds with positive early mean, the trend
label is determined by the percentage change from early to late: above +5%
increasing, below −5% decreasing, otherwise stable. -/
theorem trend_label_thresholds (e l : ℚ) (he : 0 < e) :
    ∀ pct lab, trend_interpretation (some e) (some l) = some (pct, lab) →
      pct = (l - e) / e * 100 ∧
      (lab = TrendLabel.increasing ↔ 5 < pct) ∧
      (lab = TrendLabel.decreasing ↔ pct < -5) ∧
      (lab = TrendLabel.stable ↔ (-5 ≤ pct ∧ pct ≤ 5)) := by
  intro pct lab h
  simp only [trend_interpretation, if_pos he, Option.some.injEq, Prod.mk.injEq] at h
  obtain ⟨hpct, hlab⟩ := h
  subst hpct
  subst hlab
  refine ⟨rfl, ?_⟩
  by_cases hi : 5 < (l - e) / e * 100
  · rw [if_pos hi]
    exact ⟨iff_of_true rfl hi,
      iff_of_false (by intro hc; cases hc) (by intro hc; linarith),
      iff_of_false (by intro hc; cases hc) (by intro hc; linarith [hc.2])⟩
  · by_cases hd : (l - e) / e * 100 < -5
    · rw [if_neg hi, if_pos hd]
      exact ⟨iff_of_false (by intro hc; cases hc) hi,
        iff_of_true rfl hd,
        iff_of_false (by intro hc; cases hc) (by intro hc; linarith [hc.1])⟩
    · rw [if_neg hi, if_neg hd]
      exact ⟨iff_of_false (by intro hc; cases hc) hi,
        iff_of_false (by intro hc; cases hc) hd,
        iff_of_true rfl ⟨not_lt.mp hd, not_lt.mp hi⟩⟩

/-- Witness for C8: early 10, late 12 gives a +20% change labelled
increasing. -/
theorem trend_label_thresholds_witness :
    (20 : ℚ) = ((12 : ℚ) - 10) / 10 * 100 ∧
    (TrendLabel.increasing = TrendLabel.increasing ↔ (5 : ℚ) < 20) ∧
    (TrendLabel.increasing = TrendLabel.decreasing ↔ (20 : ℚ) < -5) ∧
    (TrendLabel.increasing = TrendLabel.stable ↔ ((-5 : ℚ) ≤ 20 ∧ (20 : ℚ) ≤ 5)) :=
  trend_label_thresholds 10 12 (by norm_num) 20 TrendLabel.increasing
    (by norm_num [trend_interpretation])

/-- The four intensity categories. -/
inductive IntensityCategory
  | easy
  | medium
  | hard
  | veryHard
deriving DecidableEq

/-- Modelled from the spec: `classify_intensity_from_percentile` lives in
`src/intensity_classification.py`, which is not part of this snapshot — the
repository keeps only its validation script
(`pages/validate_player_analysis_redesign.py`) and documentation
(`pages/PLAYER_ANALYSIS_REFACTORING_SUMMARY.py`).  Per the spec and those
artefacts: percentile < 25 → Easy, [25,60) → Medium, [60,85) → Hard,
≥ 85 → Very Hard. -/
def classify_intensity_from_percentile (p : ℚ) : IntensityCategory :=
  if p < 25 then IntensityCategory.easy
  else if p < 60 then IntensityCategory.medium
  else if p < 85 then IntensityCategory.hard
  else IntensityCategory.veryHard

/-- C2: the percentile-to-category classification is exhaustive and
non-overlapping — each percentile satisfies exactly one of the four
half-open range characterizations — and the boundary examples
24.999/25/59.999/60/84.999/85 classify as
Easy/Medium/Medium/Hard/Hard/Very Hard. -/
theorem classification_exhaustive_boundaries :
    (∀ p : ℚ,
      (classify_intensity_from_percentile p = IntensityCategory.easy ↔ p < 25) ∧
      (classify_intensity_from_percentile p = IntensityCategory.medium ↔
        25 ≤ p ∧ p < 60) ∧
      (classify_intensity_from_percentile p = IntensityCategory.hard ↔
        60 ≤ p ∧ p < 85) ∧
      (classify_intensity_from_percentile p = IntensityCategory.veryHard ↔
        85 ≤ p)) ∧
    classify_intensity_from_percentile (24999 / 1000) = IntensityCategory.easy ∧
    classify_intensity_from_percentile 25 = IntensityCategory.medium ∧
    classify_intensity_from_percentile (59999 / 1000) = IntensityCategory.medium ∧
    classify_intensity_from_percentile 60 = IntensityCategory.hard ∧
    classify_intensity_from_percentile (84999 / 1000) = IntensityCategory.hard ∧
    classify_intensity_from_percentile 85 = IntensityCategory.veryHard := by
  refine ⟨?_, by norm_num [classify_intensity_from_percentile],
    by norm_num [classify_intensity_from_percentile],
    by norm_num [classify_intensity_from_percentile],
    by norm_num [classify_intensity_from_percentile],
    by norm_num [classify_intensity_from_percentile],
    by norm_num [classify_intensity_from_percentile]⟩
  intro p
  unfold classify_intensity_from_percentile
  split_ifs with h1 h2 h3
  · exact ⟨iff_of_true rfl h1,
      iff_of_false (by intro hc; cases hc) (by intro hc; linarith [hc.1]),
      iff_of_false (by intro hc; cases hc) (by intro hc; linarith [hc.1]),
      iff_of_false (by intro hc; cases hc) (by intro hc; linarith)⟩
  · exact ⟨iff_of_false (by intro hc; cases hc) h1,
      iff_of_true rfl ⟨not_lt.mp h1, h2⟩,
      iff_of_false (by intro hc; cases hc) (by intro hc; linarith [hc.1]),
      iff_of_false (by intro hc; cases hc) (by intro hc; linarith)⟩
  · exact ⟨iff_of_false (by intro hc; cases hc) (by intro hc; linarith [not_lt.mp h2]),
      iff_of_false (by intro hc; cases hc) (by intro hc; linarith [hc.2]),
      iff_of_true rfl ⟨not_lt.mp h2, h3⟩,
      iff_of_false (by intro hc; cases hc) (by intro hc; linarith)⟩
  · exact ⟨iff_of_false (by intro hc; cases hc) (by intro hc; linarith [not_lt.mp h3]),
      iff_of_false (by intro hc; cases hc) (by intro hc; linarith [hc.2]),
      iff_of_false (by intro hc; cases hc) (by intro hc; linarith [hc.2]),
      iff_of_true rfl (not_lt.mp h3)⟩

/-- A raw sample table as consumed by the page body: row count and the four
raw signal columns, each either absent or a list of (session-normalized)
values. -/
structure RawDF where
  nrows : ℕ
  speed : Option (List ℚ)
  acc : Option (List ℚ)
  hr : Option (List ℚ)
  mp : Option (List ℚ)
deriving DecidableEq

/-- `available_cols = [col for col in ['speed','acc','hr','mp'] if col in
raw_df.columns]`, counted. -/
def availableCount (raw : RawDF) : ℕ :=
  (if raw.speed.isSome then 1 else 0) + (if raw.acc.isSome then 1 else 0) +
    (if raw.hr.isSome then 1 else 0) + (if raw.mp.isSome then 1 else 0)

/-- The weighted pairs of the signals that are present at one sample. -/
def availPairs (wS wA wH wM : ℚ) (vS vA vH vM : Option ℚ) : List (ℚ × ℚ) :=
  [vS.map (fun v => (wS, v)), vA.map (fun v => (wA, v)),
   vH.map (fun v => (wH, v)), vM.map (fun v => (wM, v))].filterMap id

/-- Modelled from the spec: the per-sample weighted combination inside
`calculate_intensity_and_windows` (`utils.py`, absent from this snapshot).
Per §4.1 the combination is linear over the available signals and, when
fewer than the full signal set is present, the remaining weights are
renormalized proportionally (divided by their sum) rather than zero-filling
the missing term. -/
def compositeSample (wS wA wH wM : ℚ) (vS vA vH vM : Option ℚ) : ℚ :=
  let avail := availPairs wS wA wH wM vS vA vH vM
  let wsum := (avail.map Prod.fst).sum
  if wsum = 0 then 0 else (avail.map (fun p => p.1 * p.2)).sum / wsum

/-- The rejected alternative the spec rules out: keep the original weights
and silently zero-fill the missing signals. -/
def zeroFillSample (wS wA wH wM : ℚ) (vS vA vH vM : Option ℚ) : ℚ :=
  wS * vS.getD 0 + wA * vA.getD 0 + wH * vH.getD 0 + wM * vM.getD 0

/-- Cell access `df[col][i]` for an optional column. -/
def getCell (c : Option (List ℚ)) (i : ℕ) : Option ℚ :=
  c.bind (fun l => l.get? i)

/-- Modelled from the spec: the composite intensity series produced by
`calculate_intensity_and_windows` (`utils.py`, absent), at the page's call
site weights `w_speed = w_acc = w_hr = w_mp = 0.25`. -/
def calculate_intensity_and_windows (raw : RawDF) : List ℚ :=
  (List.range raw.nrows).map (fun i =>
    compositeSample (1/4) (1/4) (1/4) (1/4)
      (getCell raw.speed i) (getCell raw.acc i) (getCell raw.hr i) (getCell raw.mp i))

/-- Outcome of the page's data-preparation step: either the composite
intensity pipeline ran, or the raw data was passed through unchanged. -/
inductive SessionPrep
  | composite (series : List ℚ)
  | rawPassthrough (raw : RawDF)
deriving DecidableEq

/-- Embedding of the dispatch in the page body
(`Pages for APP/3_👥_Players.py`, lines 550-567): with at least 3 of the 4
signal columns present the composite pipeline runs; otherwise the raw data
is used directly.  The boolean is the warning surfaced to the caller. -/
def prepare_session_data (raw : RawDF) : SessionPrep × Bool :=
  if 3 ≤ availableCount raw then
    (SessionPrep.composite (calculate_intensity_and_windows raw), false)
  else
    (SessionPrep.rawPassthrough raw, true)

/-- Fixture for the fallback witness: only 2 of the 4 signal columns. -/
def fallbackFixture : RawDF :=
  { nrows := 1, speed := some [2], acc := none, hr := none, mp := some [4] }

/-- C5: with fewer than 3 of the 4 signal columns the engine does not fail —
it passes the raw values through and surfaces a warning; with at least 3 it
computes the weighted composite and surfaces no warning. -/
theorem missing_signal_fallback (raw : RawDF) :
    (availableCount raw < 3 →
      prepare_session_data raw = (SessionPrep.rawPassthrough raw, true)) ∧
    (3 ≤ availableCount raw →
      prepare_session_data raw =
        (SessionPrep.composite (calculate_intensity_and_windows raw), false)) := by
  constructor
  · intro hlt
    rw [prepare_session_data, if_neg (not_le.mpr hlt)]
  · intro hge
    rw [prepare_session_data, if_pos hge]

/-- Witness for C5 on `fallbackFixture` (2 of 4 columns): raw pass-through
with a warning. -/
theorem missing_signal_fallback_witness :
    prepare_session_data fallbackFixture =
      (SessionPrep.rawPassthrough fallbackFixture, true) :=
  (missing_signal_fallback fallbackFixture).1 (by decide)

theorem list_sum_div_mul (c : ℚ) (l : List (ℚ × ℚ)) :
    (l.map (fun p => p.1 / c * p.2)).sum = (l.map (fun p => p.1 * p.2)).sum / c := by
  induction l with
  | nil => simp
  | cons p ps ih =>
    simp only [List.map_cons, List.sum_cons, ih]
    ring

theorem list_sum_div (c : ℚ) (l : List (ℚ × ℚ)) :
    (l.map (fun p => p.1 / c)).sum = (l.map Prod.fst).sum / c := by
  induction l with
  | nil => simp
  | cons p ps ih =>
    simp only [List.map_cons, List.sum_cons, ih]
    ring

/-- C7: with a positive total weight over the available signals, the
composite equals the linear combination with each remaining weight
renormalized proportionally (the renormalized weights summing to 1), and on
a concrete sample with one missing signal it differs from the zero-filling
alternative that keeps the original weights. -/
theorem composite_renormalizes_weights (wS wA wH wM : ℚ) (vS vA vH vM : Option ℚ)
    (hpos : 0 < ((availPairs wS wA wH wM vS vA vH vM).map Prod.fst).sum) :
    (compositeSample wS wA wH wM vS vA vH vM =
      ((availPairs wS wA wH wM vS vA vH vM).map
        (fun p => p.1 / ((availPairs wS wA wH wM vS vA vH vM).map Prod.fst).sum
          * p.2)).sum ∧
     ((availPairs wS wA wH wM vS vA vH vM).map
        (fun p => p.1 / ((availPairs wS wA wH wM vS vA vH vM).map Prod.fst).sum)).sum
       = 1) ∧
    compositeSample (1/4) (1/4) (1/4) (1/4) (some 1) (some 1) (some 1) none = 1 ∧
    zeroFillSample (1/4) (1/4) (1/4) (1/4) (some 1) (some 1) (some 1) none = 3 / 4 := by
  refine ⟨⟨?_, ?_⟩, ?_, ?_⟩
  · rw [compositeSample]
    rw [if_neg (ne_of_gt hpos)]
    rw [list_sum_div_mul]
  · rw [list_sum_div]
    exact div_self (ne_of_gt hpos)
  · simp [compositeSample, availPairs]
    norm_num
  · norm_num [zeroFillSample]

/-- Witness for C7 at the page's equal weights with `mp` missing: the
renormalized composite of three unit signals is 1, the zero-filled
alternative is 3/4. -/
theorem composite_renormalizes_weights_witness :
    compositeSample (1/4) (1/4) (1/4) (1/4) (some 1) (some 1) (some 1) none = 1 ∧
    zeroFillSample (1/4) (1/4) (1/4) (1/4) (some 1) (some 1) (some 1) none = 3 / 4 :=
  (composite_renormalizes_weights (1/4) (1/4) (1/4) (1/4)
    (some 1) (some 1) (some 1) none
    (by simp [availPairs]
        norm_num)).2

/-- Modelled from the spec: the `IntensityWeights` configuration of
`mp_intensity_pipeline.py` (module absent from this snapshot; its tests
`test_weight_presets.py` and the explorer page construct it with three
explicit weights). -/
structure IntensityWeights where
  w_explosiveness : ℝ
  w_repeatability : ℝ
  w_volume : ℝ

/-- Per-player-session sub-metric inputs of the session intensity index:
the 10s/20s/30s MDPs and the total accumulated metabolic-power load. -/
structure SessionMetrics where
  mdp_10 : ℝ
  mdp_20 : ℝ
  mdp_30 : ℝ
  total_mp_load : ℝ

/-- Modelled from the spec (§4.3): explosiveness — derived from the 10s
MDP. -/
def explosiveness (s : SessionMetrics) : ℝ := s.mdp_10

/-- Modelled from the spec (§4.3): repeatability — average of the 20s and
30s MDPs. -/
noncomputable def repeatability (s : SessionMetrics) : ℝ := (s.mdp_20 + s.mdp_30) / 2

/-- Modelled from the spec (§4.3): volume — total accumulated load. -/
def volume (s : SessionMetrics) : ℝ := s.total_mp_load

/-- Team mean of a metric. -/
noncomputable def teamMean (xs : List ℝ) : ℝ := xs.sum / xs.length

/-- Team (population) variance of a metric. -/
noncomputable def teamVar (xs : List ℝ) : ℝ :=
  (xs.map (fun x => (x - teamMean xs) ^ 2)).sum / xs.length

/-- Team standard deviation. -/
noncomputable def teamStd (xs : List ℝ) : ℝ := Real.sqrt (teamVar xs)

/-- z-score against the team, with the degenerate-variance convention of
§4.3: 0 when the team standard deviation is 0. -/
noncomputable def zscoreAgainst (xs : List ℝ) (x : ℝ) : ℝ :=
  if teamStd xs = 0 then 0 else (x - teamMean xs) / teamStd xs

/-- Modelled from the spec (§4.3): the session intensity index of
`build_session_intensity_df` — the weighted sum of the three sub-scores,
each z-scored against the team before weighting; the weights are an
explicit argument of every call. -/
noncomputable def session_intensity_index (w : IntensityWeights)
    (team : List SessionMetrics) (s : SessionMetrics) : ℝ :=
  w.w_explosiveness * zscoreAgainst (team.map explosiveness) (explosiveness s) +
    w.w_repeatability * zscoreAgainst (team.map repeatability) (repeatability s) +
    w.w_volume * zscoreAgainst (team.map volume) (volume s)

/-- The "Match-like / Balanced" preset (0.30, 0.50, 0.20). -/
def presetBalanced : IntensityWeights := ⟨0.30, 0.50, 0.20⟩

/-- The "Speed Emphasis" preset (0.50, 0.30, 0.20). -/
def presetSpeed : IntensityWeights := ⟨0.50, 0.30, 0.20⟩

/-- The "Conditioning / Volume" preset (0.20, 0.40, 0.40). -/
def presetConditioning : IntensityWeights := ⟨0.20, 0.40, 0.40⟩

/-- Fixture player A: lower 10s peak and load, higher sustained effort. -/
def playerA : SessionMetrics := ⟨200, 80, 60, 1000⟩

/-- Fixture player B: higher 10s peak and load, lower sustained effort. -/
def playerB : SessionMetrics := ⟨400, 40, 20, 3000⟩

theorem teamMean_pair (a d : ℝ) : teamMean [a - d, a + d] = a := by
  simp [teamMean]

theorem teamStd_pair (a d : ℝ) (hd : 0 ≤ d) : teamStd [a - d, a + d] = d := by
  have hv : teamVar [a - d, a + d] = d ^ 2 := by
    simp [teamVar, teamMean_pair]
  rw [teamStd, hv, Real.sqrt_sq hd]

theorem zscore_pair_hi (a d : ℝ) (hd : 0 < d) :
    zscoreAgainst [a - d, a + d] (a + d) = 1 := by
  rw [zscoreAgainst, if_neg (by rw [teamStd_pair a d hd.le]; exact hd.ne'),
    teamStd_pair a d hd.le, teamMean_pair]
  field_simp

theorem zscore_pair_lo (a d : ℝ) (hd : 0 < d) :
    zscoreAgainst [a - d, a + d] (a - d) = -1 := by
  rw [zscoreAgainst, if_neg (by rw [teamStd_pair a d hd.le]; exact hd.ne'),
    teamStd_pair a d hd.le, teamMean_pair]
  field_simp

theorem teamMean_pair_rev (a d : ℝ) : teamMean [a + d, a - d] = a := by
  simp [teamMean]

theorem teamStd_pair_rev (a d : ℝ) (hd : 0 ≤ d) : teamStd [a + d, a - d] = d := by
  have hv : teamVar [a + d, a - d] = d ^ 2 := by
    simp [teamVar, teamMean_pair_rev]
  rw [teamStd, hv, Real.sqrt_sq hd]

theorem zscore_pair_rev_lo (a d : ℝ) (hd : 0 < d) :
    zscoreAgainst [a + d, a - d] (a - d) = -1 := by
  rw [zscoreAgainst, if_neg (by rw [teamStd_pair_rev a d hd.le]; exact hd.ne'),
    teamStd_pair_rev a d hd.le, teamMean_pair_rev]
  field_simp

/-- C6: the three weight presets applied to the same two-player fixture
produce session intensity indices that are not all identical — they are
pairwise different for player B — and the weights enter only as the
explicit argument of `session_intensity_index`. -/
theorem weight_presets_disagree :
    session_intensity_index presetBalanced [playerA, playerB] playerB = 0 ∧
    session_intensity_index presetSpeed [playerA, playerB] playerB = 2 / 5 ∧
    session_intensity_index presetConditioning [playerA, playerB] playerB = 1 / 5 ∧
    session_intensity_index presetBalanced [playerA, playerB] playerB ≠
      session_intensity_index presetSpeed [playerA, playerB] playerB ∧
    session_intensity_index presetSpeed [playerA, playerB] playerB ≠
      session_intensity_index presetConditioning [playerA, playerB] playerB ∧
    session_intensity_index presetBalanced [playerA, playerB] playerB ≠
      session_intensity_index presetConditioning [playerA, playerB] playerB := by
  have hE : zscoreAgainst ([playerA, playerB].map explosiveness)
      (explosiveness playerB) = 1 := by
    have h1 : [playerA, playerB].map explosiveness = [300 - 100, 300 + 100] := by
      simp [explosiveness, playerA, playerB]
      norm_num
    have h2 : explosiveness playerB = 300 + 100 := by
      simp [explosiveness, playerB]
      norm_num
    rw [h1, h2]
    exact zscore_pair_hi 300 100 (by norm_num)
  have hR : zscoreAgainst ([playerA, playerB].map repeatability)
      (repeatability playerB) = -1 := by
    have h1 : [playerA, playerB].map repeatability = [50 + 20, 50 - 20] := by
      simp [repeatability, playerA, playerB]
      norm_num
    have h2 : repeatability playerB = 50 - 20 := by
      simp [repeatability, playerB]
      norm_num
    rw [h1, h2]
    exact zscore_pair_rev_lo 50 20 (by norm_num)
  have hV : zscoreAgainst ([playerA, playerB].map volume)
      (volume playerB) = 1 := by
    have h1 : [playerA, playerB].map volume = [2000 - 1000, 2000 + 1000] := by
      simp [volume, playerA, playerB]
      norm_num
    have h2 : volume playerB = 2000 + 1000 := by
      simp [volume, playerB]
      norm_num
    rw [h1, h2]
    exact zscore_pair_hi 2000 1000 (by norm_num)
  have hB : session_intensity_index presetBalanced [playerA, playerB] playerB = 0 := by
    rw [session_intensity_index, hE, hR, hV]
    norm_num [presetBalanced]
  have hS : session_intensity_index presetSpeed [playerA, playerB] playerB = 2 / 5 := by
    rw [session_intensity_index, hE, hR, hV]
    norm_num [presetSpeed]
  have hC : session_intensity_index presetConditioning [playerA, playerB] playerB
      = 1 / 5 := by
    rw [session_intensity_index, hE, hR, hV]
    norm_num [presetConditioning]
  refine ⟨hB, hS, hC, ?_, ?_, ?_⟩
  · rw [hB, hS]; norm_num
  · rw [hS, hC]; norm_num
  · rw [hB, hC]; norm_num
